import Mathlib

/-!
Shallow embedding of the NexaCoin monitor bot (Python sources under `src/`)
and verification of the frozen claims about it.

Numeric conventions: Python `int` is modelled as `ℤ` (or `ℕ` where the code
guarantees non-negative values), Python `float` percentages as exact
rationals `ℚ`.  Every property settled below is robust to the difference
between IEEE doubles and exact rationals: the counterexample margins exceed
one unit in the integer result, far above any double-rounding perturbation
of the products involved.
-/

namespace NexaCoin

/-- Python `int(x)` on a real value: truncation toward zero.  Models
`int(amount * (p / 100.0))` in `src/utils.py` line 48 and
`src/transfer_processor.py` lines 78-80. -/
def pyIntTrunc (x : ℚ) : ℤ :=
  if 0 ≤ x then ⌊x⌋ else -⌊-x⌋

/-- Python `amounts[-1] += d` on a list: add `d` to the last element.
(Python raises `IndexError` on an empty list; every call site below passes a
non-empty list.) -/
def addToLast : List ℤ → ℤ → List ℤ
  | [], _ => []
  | [x], d => [x + d]
  | x :: y :: xs, d => x :: addToLast (y :: xs) d

/-- Function `split_amount_by_percentage` from `src/utils.py` lines 31-55.  The
percentage-sum check on lines 43-45 only emits a log warning and does not
change the returned value, so it has no value-level counterpart here. -/
def split_amount_by_percentage (amount : ℤ) (percentages : List ℚ) : List ℤ :=
  let amounts := percentages.map (fun p => pyIntTrunc ((amount : ℚ) * (p / 100)))
  let total_allocated := amounts.sum
  if total_allocated ≠ amount then addToLast amounts (amount - total_allocated)
  else amounts

/-- The redistribution percentages and minimum threshold consumed by
`TransferProcessor` (`src/transfer_processor.py` lines 46-48, 72). -/
structure ProcessorConfig where
  BURN_PERCENTAGE : ℚ
  TREASURY_PERCENTAGE : ℚ
  FEE_PERCENTAGE : ℚ
  MIN_TRANSFER_AMOUNT : ℤ
deriving DecidableEq

/-- The default configuration values from `src/config.py` lines 71-73, 89:
burn 5%, treasury 70%, fee 25%, minimum transfer 1000. -/
def defaultProcessorConfig : ProcessorConfig :=
  { BURN_PERCENTAGE := 5, TREASURY_PERCENTAGE := 70, FEE_PERCENTAGE := 25,
    MIN_TRANSFER_AMOUNT := 1000 }

/-- The redistribution plan `{burnAmount, treasuryAmount, feeAmount}`. -/
structure RedistributionPlan where
  burn_amount : ℤ
  treasury_amount : ℤ
  fee_amount : ℤ
deriving DecidableEq

/-- The plan-computation part of `TransferProcessor.process_transfer`
(`src/transfer_processor.py` lines 72-86): below the threshold the transfer
is skipped (`none`); otherwise each share is `int(amount * (p / 100.0))`,
and only an excess (`total > amount`) is corrected, by subtracting it from
the fee share. -/
def process_transfer_plan (cfg : ProcessorConfig) (amount : ℤ) :
    Option RedistributionPlan :=
  if amount < cfg.MIN_TRANSFER_AMOUNT then none
  else
    let burn_amount := pyIntTrunc ((amount : ℚ) * (cfg.BURN_PERCENTAGE / 100))
    let treasury_amount := pyIntTrunc ((amount : ℚ) * (cfg.TREASURY_PERCENTAGE / 100))
    let fee_amount := pyIntTrunc ((amount : ℚ) * (cfg.FEE_PERCENTAGE / 100))
    let total := burn_amount + treasury_amount + fee_amount
    let fee_amount := if amount < total then fee_amount - (total - amount) else fee_amount
    some { burn_amount := burn_amount, treasury_amount := treasury_amount,
           fee_amount := fee_amount }

/-! ### Transaction builder (`src/transfer_processor.py` lines 199-235) -/

/-- The SPL token program id used at `src/transaction_monitor.py` line 135
and `src/transfer_processor.py` line 210. -/
def TOKEN_PROGRAM_ID : String := "TokenkegQfeZyiNwAJbNbGKPFXCWuBvf9Ss623VQ5DA"

/-- Python `amount.to_bytes(k, byteorder=little)`: the `k` little-endian base-256
digits of `amount`.  (Python raises `OverflowError` when `amount ≥ 256^k`;
the claims about the builder therefore carry the bound `amount < 2^64`.) -/
def toBytesLE : ℕ → ℕ → List ℕ
  | 0, _ => []
  | k + 1, n => n % 256 :: toBytesLE k (n / 256)

/-- Decode a little-endian byte list back to a natural number (used to state
that the builder's data field really is the little-endian encoding). -/
def fromBytesLE : List ℕ → ℕ
  | [] => 0
  | b :: bs => b + 256 * fromBytesLE bs

/-- Structure `AccountMeta(pubkey, is_signer, is_writable)` from the ledger library,
as consumed at `src/transfer_processor.py` lines 227-229. -/
structure AccountMeta where
  pubkey : String
  is_signer : Bool
  is_writable : Bool
deriving DecidableEq

/-- The `Instruction(program_id, accounts, data)` value built at
`src/transfer_processor.py` lines 224-232. -/
structure TokenInstruction where
  program_id : String
  accounts : List AccountMeta
  data : List ℕ
deriving DecidableEq

/-- The transaction object built at `src/transfer_processor.py` lines
206-235: a recent blockhash plus the added instructions. -/
structure BuiltTransaction where
  recent_blockhash : String
  instructions : List TokenInstruction
deriving DecidableEq

/-- Method `TransferProcessor._build_token_transfer_transaction`
(`src/transfer_processor.py` lines 199-235).  `owner` is the public key of
the authority keypair (`self.solana_client.keypair.public_key`), and
`recent_blockhash` the value fetched on line 203. -/
def build_token_transfer_transaction (source destination : String) (amount : ℕ)
    (owner recent_blockhash : String) : BuiltTransaction :=
  { recent_blockhash := recent_blockhash,
    instructions :=
      [{ program_id := TOKEN_PROGRAM_ID,
         accounts :=
           [{ pubkey := source, is_signer := false, is_writable := true },
            { pubkey := destination, is_signer := false, is_writable := true },
            { pubkey := owner, is_signer := true, is_writable := false }],
         data := 3 :: toBytesLE 8 amount }] }

/-! ### Redistribution legs (`src/transfer_processor.py` lines 105-178) -/

/-- Outcome of submitting one leg to the network:
`send_transaction` either raises (`exn`) or returns a signature, after which
`confirm_transaction` returns a boolean (`false` = not confirmed within the
timeout).  `confirm_transaction` itself never raises: it converts its own
errors to `False` (`src/solana_client.py` lines 196-198). -/
inductive SendResult where
  | ok (signature : String) (confirmed : Bool)
  | exn (msg : String)
deriving DecidableEq

/-- How one executed leg ended, as recorded by the logging branches at
`src/transfer_processor.py` lines 161-169. -/
inductive LegOutcome where
  | confirmedOk
  | timedOut
  | submissionError
deriving DecidableEq

/-- The `transactions` list built at `src/transfer_processor.py` lines
122-149: one `(tx_type, transaction, amount)` triple per leg, appended in
the fixed order Burn, Treasury, Fee, each only when its amount is
positive. -/
def build_legs (source_token_account : String)
    (burn_token_account treasury_token_account fee_token_account : String)
    (burn_amount treasury_amount fee_amount : ℤ)
    (owner recent_blockhash : String) : List (String × BuiltTransaction × ℤ) :=
  (if 0 < burn_amount then
    [("Burn",
      build_token_transfer_transaction source_token_account burn_token_account
        burn_amount.toNat owner recent_blockhash, burn_amount)]
   else []) ++
  (if 0 < treasury_amount then
    [("Treasury",
      build_token_transfer_transaction source_token_account treasury_token_account
        treasury_amount.toNat owner recent_blockhash, treasury_amount)]
   else []) ++
  (if 0 < fee_amount then
    [("Fee",
      build_token_transfer_transaction source_token_account fee_token_account
        fee_amount.toNat owner recent_blockhash, fee_amount)]
   else [])

/-- The execution loop at `src/transfer_processor.py` lines 152-174: each
leg in list order is sent and awaited; a timeout or an exception clears the
success flag and the loop moves on to the next leg.  `net` models the
network's response to each leg's submission (keyed by the leg's `tx_type`
label, which is unique within one call).  Returns the final success flag
and the legs attempted, in order, each with its outcome.
`execute_step` is the body of the `for` loop for one leg. -/
def execute_step (net : String → SendResult)
    (acc : Bool × List (String × LegOutcome)) (t : String × BuiltTransaction × ℤ) :
    Bool × List (String × LegOutcome) :=
  match net t.1 with
  | SendResult.ok _ true => (acc.1, acc.2 ++ [(t.1, LegOutcome.confirmedOk)])
  | SendResult.ok _ false => (false, acc.2 ++ [(t.1, LegOutcome.timedOut)])
  | SendResult.exn _ => (false, acc.2 ++ [(t.1, LegOutcome.submissionError)])

/-- The full execution loop (`src/transfer_processor.py` lines 152-174),
starting from `success = True` and an empty record of attempts. -/
def execute_transactions (transactions : List (String × BuiltTransaction × ℤ))
    (net : String → SendResult) : Bool × List (String × LegOutcome) :=
  transactions.foldl (execute_step net) (true, [])

/-- Method `TransferProcessor._execute_redistribution`
(`src/transfer_processor.py` lines 105-178).  The three destination token
accounts are the results of the `_find_token_account_for_owner` lookups
(lines 113-115, `none` when no account was found); when any is missing the
function returns failure without building anything (lines 117-119). -/
def execute_redistribution (source_token_account : String)
    (burn_token_account treasury_token_account fee_token_account : Option String)
    (burn_amount treasury_amount fee_amount : ℤ)
    (owner recent_blockhash : String) (net : String → SendResult) :
    Bool × List (String × LegOutcome) :=
  match burn_token_account, treasury_token_account, fee_token_account with
  | some b, some t, some f =>
      execute_transactions
        (build_legs source_token_account b t f burn_amount treasury_amount
          fee_amount owner recent_blockhash) net
  | _, _, _ => (false, [])

/-! ### Transfer detector (`src/transaction_monitor.py` lines 127-198) -/

/-- One entry of `meta.preTokenBalances` / `meta.postTokenBalances`:
`accountIndex`, `mint`, and `int(uiTokenAmount.amount)`. -/
structure TokenBalance where
  accountIndex : ℕ
  mint : String
  amount : ℤ
deriving DecidableEq

/-- One entry of `transaction.message.instructions`: the target `programId`
and the (base-58 encoded) `data` string. -/
structure RawInstruction where
  programId : String
  data : String
deriving DecidableEq

/-- A raw ledger transaction record as consumed by the detector: success
flag (`meta.err`, `none` = success), instruction list, pre/post token
balances, account-key list, signature list, and block time. -/
structure RawTransaction where
  err : Option String
  instructions : List RawInstruction
  preTokenBalances : List TokenBalance
  postTokenBalances : List TokenBalance
  accountKeys : List String
  signatures : List String
  blockTime : ℤ
deriving DecidableEq

/-- Insert into a Python-dict model (association list keyed by `ℕ`):
an existing key keeps its position but takes the new value, a new key is
appended.  This reproduces the key order (first insertion) and value
(last assignment) of a Python dict comprehension. -/
def dictInsert (d : List (ℕ × TokenBalance)) (k : ℕ) (v : TokenBalance) :
    List (ℕ × TokenBalance) :=
  if d.any (fun e => e.1 == k) then
    d.map (fun e => if e.1 == k then (k, v) else e)
  else d ++ [(k, v)]

/-- Python `\x7bb.get("accountIndex"): b for b in balances\x7d`
(`src/transaction_monitor.py` lines 159-160). -/
def balanceDict (balances : List TokenBalance) : List (ℕ × TokenBalance) :=
  balances.foldl (fun d b => dictInsert d b.accountIndex b) []

/-- Python `pre_balances.get(idx).get("uiTokenAmount").get("amount")` with default `"0"`
converted by `int(...)` (`src/transaction_monitor.py` line 171): the stored
amount, or `0` when the index is absent. -/
def dictGetAmount (d : List (ℕ × TokenBalance)) (k : ℕ) : ℤ :=
  match d.find? (fun e => e.1 == k) with
  | some e => e.2.amount
  | none => 0

/-- The dictionary returned by `_extract_transfer_details`
(`src/transaction_monitor.py` lines 187-192). -/
structure TransferDetails where
  transaction_id : String
  destination : String
  amount : ℤ
  timestamp : ℤ
deriving DecidableEq

/-- Python `instruction.get("data", "").startswith("3")`
(`src/transaction_monitor.py` line 140): the one-character prefix test,
true iff the data string's first character is `'3'`.  (Stated on the
character list rather than through `String.startsWith`, whose core
definition recurses on byte positions by well-founded recursion and does
not reduce in the kernel; for a one-character prefix the two agree.) -/
def dataStartsWith3 (s : String) : Bool :=
  match s.data with
  | [] => false
  | c :: _ => c = '3'

/-- Method `TransactionMonitor._is_nexacoin_transfer`
(`src/transaction_monitor.py` lines 127-153): a failed transaction is
rejected; otherwise the instruction list is scanned for a token-program
instruction whose data string starts with `"3"`, and for such an
instruction the function returns `true` as soon as any pre- or post-balance
entry carries the tracked mint. -/
def is_nexacoin_transfer (nexacoin_mint : String) (tx : RawTransaction) : Bool :=
  if tx.err.isSome then false
  else
    tx.instructions.any (fun instruction =>
      instruction.programId == TOKEN_PROGRAM_ID &&
      dataStartsWith3 instruction.data &&
      (tx.postTokenBalances ++ tx.preTokenBalances).any
        (fun balance => balance.mint == nexacoin_mint))

/-- The loop of `_extract_transfer_details` over the post-balance dict
(`src/transaction_monitor.py` lines 166-192).  Each entry that is not a
tracked-mint balance increase resolving to a tracked destination is skipped;
the first fully qualifying entry yields the returned details. -/
def extractLoop (nexacoin_mint : String) (token_accounts : List String)
    (pre_balances : List (ℕ × TokenBalance)) (account_keys : List String)
    (txid : String) (block_time : ℤ) :
    List (ℕ × TokenBalance) → Option TransferDetails
  | [] => none
  | (idx, post_balance) :: rest =>
    if post_balance.mint = nexacoin_mint then
      let pre_amount := dictGetAmount pre_balances idx
      let post_amount := post_balance.amount
      if pre_amount < post_amount then
        if post_balance.accountIndex < account_keys.length then
          let transfer_to := account_keys.getD post_balance.accountIndex ""
          if transfer_to ∈ token_accounts then
            some { transaction_id := txid, destination := transfer_to,
                   amount := post_amount - pre_amount, timestamp := block_time }
          else
            extractLoop nexacoin_mint token_accounts pre_balances account_keys
              txid block_time rest
        else
          extractLoop nexacoin_mint token_accounts pre_balances account_keys
            txid block_time rest
      else
        extractLoop nexacoin_mint token_accounts pre_balances account_keys
          txid block_time rest
    else
      extractLoop nexacoin_mint token_accounts pre_balances account_keys
        txid block_time rest

/-- Method `TransactionMonitor._extract_transfer_details`
(`src/transaction_monitor.py` lines 155-198).  The transaction id is
`transaction.transaction.signatures[0]` (modelled as the head of the
signature list; the records fed to the detector carry their signature). -/
def extract_transfer_details (nexacoin_mint : String)
    (token_accounts : List String) (tx : RawTransaction) :
    Option TransferDetails :=
  extractLoop nexacoin_mint token_accounts (balanceDict tx.preTokenBalances)
    tx.accountKeys (tx.signatures.headD "") tx.blockTime
    (balanceDict tx.postTokenBalances)

/-- The classification step of `_check_account_transactions`
(`src/transaction_monitor.py` lines 119-122): a record is passed to the
transfer processor exactly when `_is_nexacoin_transfer` accepts it and
`_extract_transfer_details` yields a dictionary. -/
def classify_transaction (nexacoin_mint : String) (token_accounts : List String)
    (tx : RawTransaction) : Option TransferDetails :=
  if is_nexacoin_transfer nexacoin_mint tx then
    extract_transfer_details nexacoin_mint token_accounts tx
  else none

/-- The conjunction of the four tests a post-balance dict entry must pass
for `extractLoop` to emit it (`src/transaction_monitor.py` lines 167-184):
tracked mint, balance increase, resolvable account index, and a resolved
address among the tracked token accounts. -/
def entryQualifies (nexacoin_mint : String) (token_accounts : List String)
    (pre_balances : List (ℕ × TokenBalance)) (account_keys : List String)
    (e : ℕ × TokenBalance) : Prop :=
  e.2.mint = nexacoin_mint ∧
  dictGetAmount pre_balances e.1 < e.2.amount ∧
  e.2.accountIndex < account_keys.length ∧
  account_keys.getD e.2.accountIndex "" ∈ token_accounts

instance (nexacoin_mint : String) (token_accounts : List String)
    (pre_balances : List (ℕ × TokenBalance)) (account_keys : List String)
    (e : ℕ × TokenBalance) :
    Decidable (entryQualifies nexacoin_mint token_accounts pre_balances
      account_keys e) := by
  unfold entryQualifies
  exact inferInstance

/-! ### Transaction monitor (`src/transaction_monitor.py` lines 30-125) -/

/-- One element of the list returned by `get_signatures_for_address`. -/
structure SigInfo where
  signature : String
deriving DecidableEq, Inhabited

/-- The mutable state of `TransactionMonitor` used by the scan
(`src/transaction_monitor.py` lines 33-48): note that `last_signature` is a
single attribute of the monitor object, shared by every account the monitor
scans — the source keeps no per-account cursor. -/
structure MonitorState where
  last_signature : Option String
  token_accounts : List String
  nexacoin_mint : String
deriving DecidableEq

/-- Method `TransactionMonitor._check_account_transactions`
(`src/transaction_monitor.py` lines 88-125), for one account.  `signatures`
is the page returned (newest first) by `get_signatures_for_address(account,
before=self.last_signature, limit=20)`, and `getTransaction` models
`self.solana_client.get_transaction` (`none` = a falsy response).  The
`account` argument is used only to select the fetched page, exactly as in
the source, where it appears only in the fetch call and in log text.
Returns the updated monitor state and the transfer detail dictionaries
passed to `self.transfer_processor.process_transfer`, in order.

Mirrors the source faithfully, including the assignment
`self.last_signature = signatures[0]["signature"]` placed *inside* the
processing loop (line 113), which runs before each record is examined and
therefore changes the value that the skip test on line 109 compares
against. -/
def check_account_transactions (m : MonitorState) (account : String)
    (signatures : List SigInfo) (getTransaction : String → Option RawTransaction) :
    MonitorState × List TransferDetails :=
  let _ := account
  if signatures.isEmpty then (m, [])
  else
    match m.last_signature with
    | none =>
        ({ m with last_signature := some (signatures.headD default).signature }, [])
    | some cursor0 =>
        let newest := (signatures.headD default).signature
        let step := fun (acc : String × List TransferDetails) (sig_info : SigInfo) =>
          if sig_info.signature = acc.1 then acc
          else
            let cursor := newest
            match getTransaction sig_info.signature with
            | none => (cursor, acc.2)
            | some tx =>
                match classify_transaction m.nexacoin_mint m.token_accounts tx with
                | some details => (cursor, acc.2 ++ [details])
                | none => (cursor, acc.2)
        let result := signatures.reverse.foldl step (cursor0, [])
        ({ m with last_signature := some result.1 }, result.2)

/-- The `lastSeenId` cursor the spec attributes to an account.  The source
keys nothing by account: `_check_account_transactions` reads and writes the
single `self.last_signature` attribute whichever account it is scanning, so
the cursor observed for any account is that shared field. -/
def cursor_for (m : MonitorState) (account : String) : Option String :=
  let _ := account
  m.last_signature

/-! ### Worker loop (`src/main.py` lines 189-213) and scan error handling -/

/-- The two wait intervals of the worker loop (`src/main.py` lines 95-96;
defaults 10 and 30 seconds). -/
structure MainConfig where
  POLLING_INTERVAL : ℚ
  ERROR_RETRY_INTERVAL : ℚ
deriving DecidableEq

/-- Default interval values from `src/main.py` lines 95-96 /
`src/config.py` lines 94-95. -/
def defaultMainConfig : MainConfig :=
  { POLLING_INTERVAL := 10, ERROR_RETRY_INTERVAL := 30 }

/-- Method `_check_account_transactions` with its enclosing `try/except`
(`src/transaction_monitor.py` lines 90 and 124-125): when the signature
fetch raises (`Except.error`), the handler logs the error and the method
returns normally with the monitor state unchanged and nothing processed.
No exception ever propagates out of a per-account scan. -/
def check_account_transactions_exc (m : MonitorState) (account : String)
    (fetch : Except String (List SigInfo))
    (getTransaction : String → Option RawTransaction) :
    MonitorState × List TransferDetails :=
  match fetch with
  | Except.error _ => (m, [])
  | Except.ok signatures => check_account_transactions m account signatures getTransaction

/-- The sleep chosen by one iteration of the worker loop in `monitor_bot`
(`src/main.py` lines 195-213): the normal poll interval when the loop body
completes, the error-retry interval when an exception escapes into the
loop body. -/
def monitor_loop_sleep (cfg : MainConfig) (body : Except String Unit) : ℚ :=
  match body with
  | Except.ok _ => cfg.POLLING_INTERVAL
  | Except.error _ => cfg.ERROR_RETRY_INTERVAL

/-- One worker tick that performs a per-account scan: because
`check_account_transactions_exc` is total — the scan converts every error
into a log entry and returns normally — the loop body completes and the
tick always sleeps for the normal poll interval; the error-retry branch of
`monitor_loop_sleep` is reachable only by an exception thrown by the loop
body itself, never by a scan error. -/
def monitor_tick (cfg : MainConfig) (m : MonitorState) (account : String)
    (fetch : Except String (List SigInfo))
    (getTransaction : String → Option RawTransaction) :
    (MonitorState × List TransferDetails) × ℚ :=
  (check_account_transactions_exc m account fetch getTransaction,
   monitor_loop_sleep cfg (Except.ok ()))

/-! ## Helper lemmas -/

theorem pyIntTrunc_of_nonneg {x : ℚ} (h : 0 ≤ x) : pyIntTrunc x = ⌊x⌋ :=
  if_pos h

theorem pyIntTrunc_nonneg {x : ℚ} (h : 0 ≤ x) : 0 ≤ pyIntTrunc x := by
  rw [pyIntTrunc_of_nonneg h]
  exact Int.floor_nonneg.mpr h

theorem pyIntTrunc_le {x : ℚ} (h : 0 ≤ x) : (pyIntTrunc x : ℚ) ≤ x := by
  rw [pyIntTrunc_of_nonneg h]
  exact Int.floor_le x

theorem share_nonneg {a p : ℚ} (ha : 0 ≤ a) (hp : 0 ≤ p) : 0 ≤ a * (p / 100) :=
  mul_nonneg ha (div_nonneg hp (by norm_num))

/-- On a triple, `split_amount_by_percentage` always returns the two floored
leading shares and `amount` minus them: when the floored total misses
`amount` the difference is folded into the last entry, and when it already
equals `amount` the last floored share is itself that value. -/
theorem split_amount_triple_eq (amount : ℤ) (p1 p2 p3 : ℚ) :
    split_amount_by_percentage amount [p1, p2, p3] =
      [pyIntTrunc ((amount : ℚ) * (p1 / 100)),
       pyIntTrunc ((amount : ℚ) * (p2 / 100)),
       amount - pyIntTrunc ((amount : ℚ) * (p1 / 100))
              - pyIntTrunc ((amount : ℚ) * (p2 / 100))] := by
  set f1 := pyIntTrunc ((amount : ℚ) * (p1 / 100)) with hf1
  set f2 := pyIntTrunc ((amount : ℚ) * (p2 / 100)) with hf2
  set f3 := pyIntTrunc ((amount : ℚ) * (p3 / 100)) with hf3
  unfold split_amount_by_percentage
  simp only [List.map_cons, List.map_nil, List.sum_cons, List.sum_nil, ← hf1, ← hf2, ← hf3]
  by_cases h : f1 + (f2 + (f3 + 0)) = amount
  · rw [if_neg (by simpa using h)]
    have : f3 = amount - f1 - f2 := by omega
    rw [this]
  · rw [if_pos (by simpa using h)]
    simp only [addToLast]
    congr 1
    congr 1
    congr 1
    omega

/-! ## Claim C1 -/

/-- C1, counterexample.  The percentages `[100.01, 0, 0]` are non-negative
and their sum `100.01` is within `0.01` of `100`, and the amount `1000000`
is positive, yet `split_amount_by_percentage` returns a *negative* third
entry: flooring cannot compensate for a percentage sum slightly above 100
on a large amount, and the last element absorbs the (here negative)
remainder.  So the claim's "three non-negative integers" fails (their sum
does equal the amount). -/
theorem split_negative_entry_counterexample :
    ((0 : ℚ) ≤ 100.01 ∧ (0 : ℚ) ≤ 0 ∧ |(100.01 : ℚ) + 0 + 0 - 100| ≤ 1 / 100) ∧
    split_amount_by_percentage 1000000 [(100.01 : ℚ), 0, 0] = [1000100, 0, -100] ∧
    ¬ (0 : ℤ) ≤ -100 := by
  refine ⟨⟨by norm_num, le_refl _, by rw [abs_le]; constructor <;> norm_num⟩, ?_, by decide⟩
  norm_num [split_amount_by_percentage, pyIntTrunc, addToLast]

/-- C1, amended: for every positive integer amount and ordered triple of
non-negative percentages whose sum is within 0.01 of 100,
`split_amount_by_percentage` returns three integers whose sum equals the
amount exactly; the first two are always non-negative, and when the
percentage sum does not exceed 100 the third is non-negative as well (the
counterexample shows the third entry can be negative when the sum lies in
the tolerated band above 100). -/
theorem split_amount_triple_exact_sum (amount : ℤ) (p1 p2 p3 : ℚ)
    (hamt : 0 < amount) (hp1 : 0 ≤ p1) (hp2 : 0 ≤ p2) (hp3 : 0 ≤ p3)
    (_htol : |p1 + p2 + p3 - 100| ≤ 1 / 100) :
    ∃ r1 r2 r3 : ℤ,
      split_amount_by_percentage amount [p1, p2, p3] = [r1, r2, r3] ∧
      r1 + r2 + r3 = amount ∧ 0 ≤ r1 ∧ 0 ≤ r2 ∧
      (p1 + p2 + p3 ≤ 100 → 0 ≤ r3) := by
  have ha : (0 : ℚ) ≤ (amount : ℚ) := by exact_mod_cast hamt.le
  refine ⟨_, _, _, split_amount_triple_eq amount p1 p2 p3, by ring, ?_, ?_, ?_⟩
  · exact pyIntTrunc_nonneg (share_nonneg ha hp1)
  · exact pyIntTrunc_nonneg (share_nonneg ha hp2)
  · intro hle
    have l1 := pyIntTrunc_le (share_nonneg ha hp1)
    have l2 := pyIntTrunc_le (share_nonneg ha hp2)
    have hq : (pyIntTrunc ((amount : ℚ) * (p1 / 100)) : ℚ)
        + (pyIntTrunc ((amount : ℚ) * (p2 / 100)) : ℚ) ≤ (amount : ℚ) := by
      have h12 : p1 + p2 ≤ 100 := by linarith
      calc (pyIntTrunc ((amount : ℚ) * (p1 / 100)) : ℚ)
            + (pyIntTrunc ((amount : ℚ) * (p2 / 100)) : ℚ)
          ≤ (amount : ℚ) * (p1 / 100) + (amount : ℚ) * (p2 / 100) :=
            add_le_add l1 l2
        _ = (amount : ℚ) * ((p1 + p2) / 100) := by ring
        _ ≤ (amount : ℚ) * 1 := by
            apply mul_le_mul_of_nonneg_left _ ha
            linarith
        _ = (amount : ℚ) := mul_one _
    have hz : pyIntTrunc ((amount : ℚ) * (p1 / 100))
        + pyIntTrunc ((amount : ℚ) * (p2 / 100)) ≤ amount := by exact_mod_cast hq
    omega

/-- C1, witness: the amended theorem at `amount = 1000`,
percentages `[5, 70, 25]`. -/
theorem split_amount_triple_exact_sum_witness :
    ∃ r1 r2 r3 : ℤ,
      split_amount_by_percentage 1000 [(5 : ℚ), 70, 25] = [r1, r2, r3] ∧
      r1 + r2 + r3 = 1000 ∧ 0 ≤ r1 ∧ 0 ≤ r2 ∧
      ((5 : ℚ) + 70 + 25 ≤ 100 → 0 ≤ r3) :=
  split_amount_triple_exact_sum 1000 5 70 25 (by decide) (by norm_num)
    (by norm_num) (by norm_num) (by norm_num)

/-! ## Claim C2 -/

/-- C2: the claimed invariant `burn + treasury + fee = amount` fails.
At the default configuration (5% / 70% / 25%, threshold 1000) the incoming
amount `1007` is at or above `MIN_TRANSFER_AMOUNT`, yet the plan computed
by `process_transfer` is `(50, 704, 251)`: the code corrects the fee share
only when the floored total *exceeds* the amount, and here flooring loses
2 units, so the plan sums to `1005 ≠ 1007`. -/
theorem process_transfer_plan_sum_mismatch :
    process_transfer_plan defaultProcessorConfig 1007 =
      some { burn_amount := 50, treasury_amount := 704, fee_amount := 251 } ∧
    (50 + 704 + 251 : ℤ) ≠ 1007 := by
  constructor
  · norm_num [process_transfer_plan, defaultProcessorConfig, pyIntTrunc]
  · decide

/-! ## Claim C9 -/

theorem toBytesLE_length (k n : ℕ) : (toBytesLE k n).length = k := by
  induction k generalizing n with
  | zero => simp [toBytesLE]
  | succ k ih => simp [toBytesLE, ih]

theorem toBytesLE_lt (k n : ℕ) : ∀ b ∈ toBytesLE k n, b < 256 := by
  induction k generalizing n with
  | zero => simp [toBytesLE]
  | succ k ih =>
    intro b hb
    simp only [toBytesLE, List.mem_cons] at hb
    rcases hb with h | h
    · subst h
      exact Nat.mod_lt _ (by norm_num)
    · exact ih (n / 256) b h

theorem fromBytesLE_toBytesLE (k n : ℕ) :
    fromBytesLE (toBytesLE k n) = n % 256 ^ k := by
  induction k generalizing n with
  | zero => simp [toBytesLE, fromBytesLE, Nat.mod_one]
  | succ k ih =>
    simp only [toBytesLE, fromBytesLE, ih]
    rw [pow_succ, mul_comm (256 ^ k) 256, Nat.mod_mul]

/-- C9: for every source, destination and amount (below `2⁶⁴`, the range
accepted by Python's `to_bytes(8, 'little')`), the built transfer
transaction holds a single instruction whose data is the byte `3` followed
by exactly eight bytes that little-endian-decode back to the amount, and
whose account list is `[source (writable, non-signer), destination
(writable, non-signer), authority (signer, non-writable)]`, in that
order. -/
theorem build_token_transfer_transaction_spec
    (source destination owner recent_blockhash : String) (amount : ℕ)
    (hlt : amount < 2 ^ 64) :
    build_token_transfer_transaction source destination amount owner recent_blockhash =
      { recent_blockhash := recent_blockhash,
        instructions :=
          [{ program_id := TOKEN_PROGRAM_ID,
             accounts :=
               [{ pubkey := source, is_signer := false, is_writable := true },
                { pubkey := destination, is_signer := false, is_writable := true },
                { pubkey := owner, is_signer := true, is_writable := false }],
             data := 3 :: toBytesLE 8 amount }] } ∧
    (toBytesLE 8 amount).length = 8 ∧
    (∀ b ∈ toBytesLE 8 amount, b < 256) ∧
    fromBytesLE (toBytesLE 8 amount) = amount := by
  refine ⟨rfl, toBytesLE_length 8 amount, toBytesLE_lt 8 amount, ?_⟩
  rw [fromBytesLE_toBytesLE]
  exact Nat.mod_eq_of_lt (by norm_num at hlt ⊢; exact hlt)

/-- C9, witness: the builder theorem at amount `300`, concrete strings. -/
theorem build_token_transfer_transaction_spec_witness :
    build_token_transfer_transaction "src" "dst" 300 "own" "hash" =
      { recent_blockhash := "hash",
        instructions :=
          [{ program_id := TOKEN_PROGRAM_ID,
             accounts :=
               [{ pubkey := "src", is_signer := false, is_writable := true },
                { pubkey := "dst", is_signer := false, is_writable := true },
                { pubkey := "own", is_signer := true, is_writable := false }],
             data := 3 :: toBytesLE 8 300 }] } ∧
    (toBytesLE 8 300).length = 8 ∧
    (∀ b ∈ toBytesLE 8 300, b < 256) ∧
    fromBytesLE (toBytesLE 8 300) = 300 :=
  build_token_transfer_transaction_spec "src" "dst" "own" "hash" 300 (by norm_num)

/-! ## Claims C5 and C10 -/

theorem execute_foldl_attempts (net : String → SendResult)
    (ts : List (String × BuiltTransaction × ℤ)) :
    ∀ init : Bool × List (String × LegOutcome),
      ((ts.foldl (execute_step net) init).2).map Prod.fst =
        init.2.map Prod.fst ++ ts.map (fun t => t.1) := by
  induction ts with
  | nil => intro init; simp
  | cons t ts ih =>
    intro init
    rw [List.foldl_cons, ih]
    have hstep : (execute_step net init t).2.map Prod.fst =
        init.2.map Prod.fst ++ [t.1] := by
      cases h : net t.1 with
      | ok s confirmed => cases confirmed <;> simp [execute_step, h]
      | exn msg => simp [execute_step, h]
    rw [hstep]
    simp

/-- Every leg in the built list is attempted, in list order, whatever the
network outcomes are: the execution loop never aborts early. -/
theorem execute_transactions_attempts_all
    (ts : List (String × BuiltTransaction × ℤ)) (net : String → SendResult) :
    ((execute_transactions ts net).2).map Prod.fst = ts.map (fun t => t.1) := by
  unfold execute_transactions
  rw [execute_foldl_attempts]
  simp

/-- C5: for a qualifying transfer whose three leg amounts are positive, the
legs are executed sequentially in the fixed order Burn, Treasury, Fee, and
a timed-out middle leg does not prevent the later leg: with network
outcomes Burn = confirms, Treasury = times out, Fee = confirms, all three
legs are attempted in that order, the recorded outcomes contain exactly the
one timeout, and the overall result is failure. -/
theorem legs_attempted_in_order_despite_timeout
    (source_token_account burn_acct treasury_acct fee_acct owner bh : String)
    (burn_amount treasury_amount fee_amount : ℤ)
    (net : String → SendResult) (sB sT sF : String)
    (hb : 0 < burn_amount) (ht : 0 < treasury_amount) (hf : 0 < fee_amount)
    (hnB : net "Burn" = SendResult.ok sB true)
    (hnT : net "Treasury" = SendResult.ok sT false)
    (hnF : net "Fee" = SendResult.ok sF true) :
    execute_redistribution source_token_account
      (some burn_acct) (some treasury_acct) (some fee_acct)
      burn_amount treasury_amount fee_amount owner bh net =
      (false,
       [("Burn", LegOutcome.confirmedOk), ("Treasury", LegOutcome.timedOut),
        ("Fee", LegOutcome.confirmedOk)]) := by
  simp [execute_redistribution, build_legs, hb, ht, hf, execute_transactions,
    execute_step, hnB, hnT, hnF]

/-- C5, witness: the ordering theorem at concrete accounts, amounts
`(10, 20, 30)` and a network that confirms Burn and Fee but lets Treasury
time out. -/
theorem legs_attempted_in_order_despite_timeout_witness :
    execute_redistribution "srcacct" (some "burnacct") (some "treasacct")
      (some "feeacct") 10 20 30 "own" "bh"
      (fun leg => if leg = "Treasury" then SendResult.ok "sigT" false
                  else SendResult.ok "sigO" true) =
      (false,
       [("Burn", LegOutcome.confirmedOk), ("Treasury", LegOutcome.timedOut),
        ("Fee", LegOutcome.confirmedOk)]) :=
  legs_attempted_in_order_despite_timeout "srcacct" "burnacct" "treasacct"
    "feeacct" "own" "bh" 10 20 30 _ "sigO" "sigT" "sigO"
    (by decide) (by decide) (by decide) (by simp) (by simp) (by simp)

/-- C10: a leg whose computed amount is zero (or negative) is neither built
nor submitted — every entry of the built leg list has a positive amount —
while the remaining legs are still attempted, in the fixed order Burn,
Treasury, Fee restricted to the positive amounts. -/
theorem zero_amount_leg_skipped
    (source_token_account burn_acct treasury_acct fee_acct owner bh : String)
    (burn_amount treasury_amount fee_amount : ℤ)
    (net : String → SendResult) :
    (∀ leg ∈ build_legs source_token_account burn_acct treasury_acct fee_acct
        burn_amount treasury_amount fee_amount owner bh, 0 < leg.2.2) ∧
    ((execute_redistribution source_token_account
        (some burn_acct) (some treasury_acct) (some fee_acct)
        burn_amount treasury_amount fee_amount owner bh net).2).map Prod.fst =
      (if 0 < burn_amount then ["Burn"] else []) ++
      (if 0 < treasury_amount then ["Treasury"] else []) ++
      (if 0 < fee_amount then ["Fee"] else []) := by
  constructor
  · intro leg hleg
    simp only [build_legs, List.mem_append] at hleg
    rcases hleg with (h | h) | h <;> split_ifs at h <;> simp_all
  · show ((execute_transactions _ net).2).map Prod.fst = _
    rw [execute_transactions_attempts_all]
    simp only [build_legs, List.map_append]
    split_ifs <;> simp

/-- C10, witness: with amounts `(10, 0, 30)` the Treasury leg is absent and
Burn and Fee are attempted in order. -/
theorem zero_amount_leg_skipped_witness :
    ((execute_redistribution "srcacct" (some "burnacct") (some "treasacct")
        (some "feeacct") 10 0 30 "own" "bh"
        (fun _ => SendResult.ok "sig" true)).2).map Prod.fst =
      ["Burn", "Fee"] := by
  have h := (zero_amount_leg_skipped "srcacct" "burnacct" "treasacct" "feeacct"
    "own" "bh" 10 0 30 (fun _ => SendResult.ok "sig" true)).2
  rw [h]
  norm_num

/-! ## Claim C6 -/

/-- C6, counterexample.  On the first scan (cursor still unset) of an
account whose transaction history is empty, `_check_account_transactions`
returns before touching the cursor: no records are processed — but the
cursor is *not* set to a non-null value, contradicting the claim's
"regardless of the length of the account's transaction history ... the
cursor is set to a non-null value". -/
theorem first_scan_empty_history_counterexample :
    check_account_transactions
        { last_signature := none, token_accounts := ["tokacct"],
          nexacoin_mint := "NEXA" } "acct" [] (fun _ => none) =
      ({ last_signature := none, token_accounts := ["tokacct"],
         nexacoin_mint := "NEXA" }, []) ∧
    (none : Option String).isSome = false := by
  constructor
  · rfl
  · rfl

/-- C6, amended: on a scan call made while the (process-wide) cursor is
unset, no records are processed; if the fetched page is non-empty the
cursor is set to the newest id in the page, while if the page is empty the
cursor remains unset. -/
theorem first_scan_establishes_baseline (m : MonitorState) (account : String)
    (signatures : List SigInfo) (getTransaction : String → Option RawTransaction)
    (h : m.last_signature = none) :
    (check_account_transactions m account signatures getTransaction).2 = [] ∧
    (check_account_transactions m account signatures getTransaction).1.last_signature =
      (match signatures with
       | [] => none
       | s :: _ => some s.signature) := by
  cases signatures with
  | nil => simp [check_account_transactions, h]
  | cons s rest => simp [check_account_transactions, h]

/-- C6, witness: the baseline theorem at a concrete unset-cursor state and
a two-element page headed by `"sigB"`. -/
theorem first_scan_establishes_baseline_witness :
    (check_account_transactions
        { last_signature := none, token_accounts := [], nexacoin_mint := "NEXA" }
        "acct" [⟨"sigB"⟩, ⟨"sigA"⟩] (fun _ => none)).2 = [] ∧
    (check_account_transactions
        { last_signature := none, token_accounts := [], nexacoin_mint := "NEXA" }
        "acct" [⟨"sigB"⟩, ⟨"sigA"⟩] (fun _ => none)).1.last_signature =
      some "sigB" :=
  first_scan_establishes_baseline
    { last_signature := none, token_accounts := [], nexacoin_mint := "NEXA" }
    "acct" [⟨"sigB"⟩, ⟨"sigA"⟩] (fun _ => none) rfl

/-! ## Claim C7 -/

/-- C7, counterexample.  The source keeps one `last_signature` attribute for
the whole monitor, so scanning account `"accountA"` (first scan, one-record
page) changes the cursor that account `"accountB"` observes: it was `none`
before the scan and `some "s1"` after, contradicting the claim that a scan
of one account leaves every other account's cursor unchanged. -/
theorem scan_changes_other_cursor_counterexample :
    cursor_for ((check_account_transactions
        { last_signature := none, token_accounts := [], nexacoin_mint := "NEXA" }
        "accountA" [⟨"s1"⟩] (fun _ => none)).1) "accountB" ≠
      cursor_for
        { last_signature := none, token_accounts := [], nexacoin_mint := "NEXA" }
        "accountB" := by
  simp [check_account_transactions, cursor_for]

/-- C7, amended: the pagination cursor is a single process-wide value
shared by every monitored account, not per-account state; a scan of any one
account with a non-empty page while the cursor is unset sets the cursor
observed by *every* account (in particular any other account) to that
page's newest id. -/
theorem shared_cursor_visible_to_all_accounts (m : MonitorState)
    (scanned other : String) (s : SigInfo) (rest : List SigInfo)
    (getTransaction : String → Option RawTransaction)
    (h : m.last_signature = none) :
    cursor_for ((check_account_transactions m scanned (s :: rest)
        getTransaction).1) other = some s.signature := by
  simp [check_account_transactions, cursor_for, h]

/-- C7, witness: the shared-cursor theorem at a concrete state, scanning
`"accountA"` and observing the cursor for `"accountB"`. -/
theorem shared_cursor_visible_to_all_accounts_witness :
    cursor_for ((check_account_transactions
        { last_signature := none, token_accounts := [], nexacoin_mint := "NEXA" }
        "accountA" [⟨"s1"⟩] (fun _ => none)).1) "accountB" = some "s1" :=
  shared_cursor_visible_to_all_accounts
    { last_signature := none, token_accounts := [], nexacoin_mint := "NEXA" }
    "accountA" "accountB" ⟨"s1"⟩ [] (fun _ => none) rfl

/-! ## Claim C8 -/

/-- C8, counterexample.  A tick whose per-account scan fails (the signature
fetch raises) still sleeps the *normal* poll interval (10 s by default),
not the error-retry interval (30 s): `_check_account_transactions` catches
every exception itself, so nothing reaches the loop's error branch.  This
contradicts the claim that the worker waits the error-retry interval after
a scan error. -/
theorem scan_error_sleeps_poll_interval_counterexample :
    monitor_tick defaultMainConfig
        { last_signature := some "x", token_accounts := [],
          nexacoin_mint := "NEXA" }
        "acct" (Except.error "RPC connection failed") (fun _ => none) =
      (({ last_signature := some "x", token_accounts := [],
          nexacoin_mint := "NEXA" }, []), 10) ∧
    defaultMainConfig.ERROR_RETRY_INTERVAL = 30 ∧ (10 : ℚ) ≠ 30 := by
  refine ⟨rfl, rfl, by norm_num⟩

/-- C8, amended: a per-account scan error is caught and logged inside the
scan — the monitor state is unchanged, nothing is processed, and the worker
does not terminate — and the tick then waits the normal poll interval, not
the error-retry interval; the error-retry interval is waited only when an
exception escapes into the main loop body itself. -/
theorem scan_error_swallowed_normal_poll (cfg : MainConfig) (m : MonitorState)
    (account msg : String) (getTransaction : String → Option RawTransaction) :
    monitor_tick cfg m account (Except.error msg) getTransaction =
      ((m, []), cfg.POLLING_INTERVAL) ∧
    (∀ e : String, monitor_loop_sleep cfg (Except.error e) =
      cfg.ERROR_RETRY_INTERVAL) :=
  ⟨rfl, fun _ => rfl⟩

/-! ## Claim C4 -/

theorem extractLoop_skip (nexacoin_mint : String) (token_accounts : List String)
    (pre_balances : List (ℕ × TokenBalance)) (account_keys : List String)
    (txid : String) (block_time : ℤ) (e : ℕ × TokenBalance)
    (rest : List (ℕ × TokenBalance))
    (h : ¬ entryQualifies nexacoin_mint token_accounts pre_balances account_keys e) :
    extractLoop nexacoin_mint token_accounts pre_balances account_keys txid
      block_time (e :: rest) =
    extractLoop nexacoin_mint token_accounts pre_balances account_keys txid
      block_time rest := by
  obtain ⟨idx, pb⟩ := e
  simp only [extractLoop]
  split_ifs with h1 h2 h3 h4
  · exact absurd ⟨h1, h2, h3, h4⟩ h
  all_goals rfl

theorem extractLoop_hit (nexacoin_mint : String) (token_accounts : List String)
    (pre_balances : List (ℕ × TokenBalance)) (account_keys : List String)
    (txid : String) (block_time : ℤ) (e : ℕ × TokenBalance)
    (rest : List (ℕ × TokenBalance))
    (h : entryQualifies nexacoin_mint token_accounts pre_balances account_keys e) :
    extractLoop nexacoin_mint token_accounts pre_balances account_keys txid
      block_time (e :: rest) =
    some { transaction_id := txid,
           destination := account_keys.getD e.2.accountIndex "",
           amount := e.2.amount - dictGetAmount pre_balances e.1,
           timestamp := block_time } := by
  obtain ⟨idx, pb⟩ := e
  obtain ⟨h1, h2, h3, h4⟩ := h
  simp only [extractLoop]
  rw [if_pos h1, if_pos h2, if_pos h3, if_pos h4]

theorem extractLoop_first (nexacoin_mint : String) (token_accounts : List String)
    (pre_balances : List (ℕ × TokenBalance)) (account_keys : List String)
    (txid : String) (block_time : ℤ) (before : List (ℕ × TokenBalance))
    (e : ℕ × TokenBalance) (after : List (ℕ × TokenBalance))
    (hbefore : ∀ x ∈ before,
      ¬ entryQualifies nexacoin_mint token_accounts pre_balances account_keys x)
    (he : entryQualifies nexacoin_mint token_accounts pre_balances account_keys e) :
    extractLoop nexacoin_mint token_accounts pre_balances account_keys txid
      block_time (before ++ e :: after) =
    some { transaction_id := txid,
           destination := account_keys.getD e.2.accountIndex "",
           amount := e.2.amount - dictGetAmount pre_balances e.1,
           timestamp := block_time } := by
  induction before with
  | nil =>
    simpa using extractLoop_hit nexacoin_mint token_accounts pre_balances
      account_keys txid block_time e after he
  | cons x xs ih =>
    rw [List.cons_append,
      extractLoop_skip nexacoin_mint token_accounts pre_balances account_keys
        txid block_time x _ (hbefore x (List.mem_cons_self x xs))]
    exact ih (fun y hy => hbefore y (List.mem_cons_of_mem x hy))

theorem dictInsert_mem {d : List (ℕ × TokenBalance)} {k : ℕ} {v : TokenBalance}
    {e : ℕ × TokenBalance} (h : e ∈ dictInsert d k v) : e ∈ d ∨ e = (k, v) := by
  unfold dictInsert at h
  split_ifs at h with hany
  · rcases List.mem_map.1 h with ⟨x, hx, hfx⟩
    by_cases hxk : (x.1 == k) = true
    · right
      rw [if_pos hxk] at hfx
      exact hfx.symm
    · left
      rw [if_neg hxk] at hfx
      exact hfx ▸ hx
  · rcases List.mem_append.1 h with h' | h'
    · exact Or.inl h'
    · right
      simpa using h'

theorem balanceDict_val_mem (bs : List TokenBalance) :
    ∀ (d : List (ℕ × TokenBalance)) (e : ℕ × TokenBalance),
      e ∈ bs.foldl (fun d b => dictInsert d b.accountIndex b) d →
      e ∈ d ∨ e.2 ∈ bs := by
  induction bs with
  | nil => intro d e h; exact Or.inl h
  | cons b bs ih =>
    intro d e h
    rw [List.foldl_cons] at h
    rcases ih _ e h with h' | h'
    · rcases dictInsert_mem h' with h'' | h''
      · exact Or.inl h''
      · right
        rw [h'']
        simp
    · exact Or.inr (List.mem_cons_of_mem b h')

theorem mem_balanceDict {bs : List TokenBalance} {e : ℕ × TokenBalance}
    (h : e ∈ balanceDict bs) : e.2 ∈ bs := by
  rcases balanceDict_val_mem bs [] e h with h' | h'
  · simp at h'
  · exact h'

/-- C4: for a transaction record with a successful outcome (`err = none`),
an instruction targeting the token program whose data carries the transfer
opcode prefix `"3"`, and whose post-balance dict has a first qualifying
entry — tracked mint, post-balance exceeding the pre-balance at the same
index, index resolving into the account-key list, resolved address among
the tracked destinations — classification emits a transfer event whose
amount is exactly post-balance minus pre-balance and whose destination is
that resolved account.  (The code returns the first qualifying entry; the
`before`-entries hypothesis pins the examined entry as that first one.) -/
theorem classify_detects_first_qualifying_transfer
    (nexacoin_mint : String) (token_accounts : List String)
    (tx : RawTransaction) (instruction : RawInstruction)
    (before after : List (ℕ × TokenBalance)) (e : ℕ × TokenBalance)
    (herr : tx.err = none)
    (hins : instruction ∈ tx.instructions)
    (hprog : instruction.programId = TOKEN_PROGRAM_ID)
    (hdata : dataStartsWith3 instruction.data = true)
    (hdict : balanceDict tx.postTokenBalances = before ++ e :: after)
    (hbefore : ∀ x ∈ before,
      ¬ entryQualifies nexacoin_mint token_accounts
          (balanceDict tx.preTokenBalances) tx.accountKeys x)
    (he : entryQualifies nexacoin_mint token_accounts
        (balanceDict tx.preTokenBalances) tx.accountKeys e) :
    classify_transaction nexacoin_mint token_accounts tx =
      some { transaction_id := tx.signatures.headD "",
             destination := tx.accountKeys.getD e.2.accountIndex "",
             amount := e.2.amount -
               dictGetAmount (balanceDict tx.preTokenBalances) e.1,
             timestamp := tx.blockTime } := by
  have hmem : e.2 ∈ tx.postTokenBalances := by
    apply mem_balanceDict
    rw [hdict]
    exact List.mem_append_right _ (List.mem_cons_self e after)
  have htrue : is_nexacoin_transfer nexacoin_mint tx = true := by
    unfold is_nexacoin_transfer
    rw [herr]
    simp only [Option.isSome_none, if_false, Bool.false_eq_true]
    rw [List.any_eq_true]
    refine ⟨instruction, hins, ?_⟩
    rw [Bool.and_eq_true, Bool.and_eq_true]
    refine ⟨⟨?_, hdata⟩, ?_⟩
    · rw [hprog]
      simp
    · rw [List.any_eq_true]
      refine ⟨e.2, List.mem_append_left _ hmem, ?_⟩
      rw [he.1]
      simp
  unfold classify_transaction
  rw [htrue]
  simp only [if_true]
  unfold extract_transfer_details
  rw [hdict]
  exact extractLoop_first nexacoin_mint token_accounts
    (balanceDict tx.preTokenBalances) tx.accountKeys
    (tx.signatures.headD "") tx.blockTime before e after hbefore he

/-- C4, witness: the classification theorem at a concrete successful
transaction carrying a token-program opcode-3 instruction and a tracked
balance increase from 10 to 5010 at index 0. -/
theorem classify_detects_first_qualifying_transfer_witness :
    classify_transaction "NEXA" ["tokacct"]
      { err := none,
        instructions := [{ programId := TOKEN_PROGRAM_ID, data := "3AbCd" }],
        preTokenBalances := [{ accountIndex := 0, mint := "NEXA", amount := 10 }],
        postTokenBalances := [{ accountIndex := 0, mint := "NEXA", amount := 5010 }],
        accountKeys := ["tokacct"],
        signatures := ["sigC"],
        blockTime := 123 } =
      some { transaction_id := "sigC", destination := "tokacct",
             amount := 5000, timestamp := 123 } :=
  classify_detects_first_qualifying_transfer "NEXA" ["tokacct"] _
    { programId := TOKEN_PROGRAM_ID, data := "3AbCd" } [] []
    (0, { accountIndex := 0, mint := "NEXA", amount := 5010 })
    rfl (by simp) rfl (by decide) (by decide) (by simp)
    ⟨rfl, by decide, by decide, by decide⟩

/-! ## Claim C3 -/

/-- C3: evaluation at the failing input.  The cursor stored at the start of
the call is `"sigC"`; the fetched page (newest first) is
`["sigN", "sigC", "sigM"]`, and `"sigC"` resolves to a qualifying NexaCoin
transfer.  Processing runs oldest first: `"sigM"` is examined first and the
loop assigns `last_signature := "sigN"` (the page head) *before* the skip
test of the next record, so `"sigC"` no longer equals the cursor and the
record whose id equals the start-of-call cursor is classified and passed to
the transfer processor — its details, with `transaction_id = "sigC"`,
appear in the processed list.  (The same overwrite also makes the final
comparison skip the genuinely new newest record `"sigN"`.) -/
theorem cursor_record_reprocessed :
    (check_account_transactions
        { last_signature := some "sigC", token_accounts := ["tokacct"],
          nexacoin_mint := "NEXA" }
        "acct" [⟨"sigN"⟩, ⟨"sigC"⟩, ⟨"sigM"⟩]
        (fun s =>
          if s = "sigC" then
            some { err := none,
                   instructions := [{ programId := TOKEN_PROGRAM_ID, data := "3AbCd" }],
                   preTokenBalances := [{ accountIndex := 0, mint := "NEXA", amount := 10 }],
                   postTokenBalances := [{ accountIndex := 0, mint := "NEXA", amount := 5010 }],
                   accountKeys := ["tokacct"],
                   signatures := ["sigC"],
                   blockTime := 123 }
          else none)).2 =
      [{ transaction_id := "sigC", destination := "tokacct",
         amount := 5000, timestamp := 123 }] := by
  decide

end NexaCoin
